import Mathlib

/-!
Verification of the extension discovery and reverse-proxy gateway of the
Tekton dashboard backend (`pkg/endpoints/utils.go`).

The embedding models the data that the gateway core manipulates:
Kubernetes services (name, annotations, declared ports) as returned by the
cluster list query, the go-restful container/WebService/route structures,
and the forwarding handler.  Go panics (out-of-range indexing, nil
dereference) are modelled by `Option`, with `none` standing for a panic
that aborts the surrounding computation.

External collaborators that are not part of this repository's source —
the Kubernetes client performing the list query, the go-restful route
table, `net/url.Parse` and `net/http/httputil`'s single-host reverse
proxy — are modelled from the specification's description of their
contracts; every such definition carries a doc comment starting
`Modelled from the spec:`.
-/

namespace TektonDashboard

/-- `extensionLabel` from utils.go: a service with this label is registered
as an extension. -/
def extensionLabel : String := "tekton-dashboard-extension=true"

/-- `urlKey` from utils.go: the extension path is specified by the
annotation with this key. -/
def urlKey : String := "tekton-dashboard-endpoints"

/-- `restful.MIME_JSON`. -/
def mimeJSON : String := "application/json"

/-- One entry of `svc.Spec.Ports` (`corev1.ServicePort`): the embedding
keeps the numeric `Port` field (an `int32` in Go) that `getPort` reads. -/
structure ServicePort where
  port : Int
deriving Repr, DecidableEq

/-- A Kubernetes service as consumed by `RegisterExtension`: its
`ObjectMeta.Name`, its `ObjectMeta.Annotations` (a Go map, embedded as an
association list whose keys are unique), and its `Spec.Ports`. -/
structure Service where
  name : String
  annotations : List (String × String)
  ports : List ServicePort
deriving Repr, DecidableEq

/-- The `Extension` struct from utils.go. -/
structure Extension where
  Name : String
  URL : String
  Port : String
deriving Repr, DecidableEq

/-- `getPort` from utils.go: `strconv.Itoa(int(svc.Spec.Ports[0].Port))`.
Indexing `svc.Spec.Ports[0]` panics (index out of range) when the port
list is empty; the panic is modelled by `none`. -/
def getPort (svc : Service) : Option String :=
  match svc.ports with
  | [] => none
  | p :: _ => some (toString p.port)

/-- A route handler: either `HandleExtension` bound to a concrete
`Extension` value (`ext.HandleExtension` in `RegisterExtension`), or one of
the dashboard's own handlers, identified by name (their bodies live in
other files of the package and are irrelevant to the gateway core). -/
inductive Handler where
  | extensionHandler (ext : Extension)
  | named (s : String)
deriving Repr, DecidableEq

/-- One registered route: HTTP method, path, handler
(`ws.Route(ws.POST(url).To(...))` / `wsv1.Route(wsv1.GET(...).To(...))`). -/
structure Route where
  method : String
  path : String
  handler : Handler
deriving Repr, DecidableEq

/-- A go-restful `WebService`: root path, consumed/produced MIME types,
and its registered routes. -/
structure WebService where
  rootPath : String
  consumes : List String
  produces : List String
  routes : List Route
deriving Repr, DecidableEq

/-- True when two routes collide in the route table: same HTTP method and
same path. -/
def routeKeyMatch (r q : Route) : Bool :=
  q.method == r.method && q.path == r.path

/-- Modelled from the spec: `WebService.Route` is go-restful library code,
not under `src/`.  The spec describes the route table as "a mutable mapping
from url-path to Extension descriptor" in which "duplicate paths overwrite
earlier registrations (last registered wins)"; dispatch distinguishes HTTP
methods, so the mapping is keyed by the (method, path) pair. -/
def WebService.route (w : WebService) (r : Route) : WebService :=
  { w with routes := w.routes.filter (fun q => !(routeKeyMatch r q)) ++ [r] }

/-- A go-restful `Container`: the list of added `WebService`s. -/
structure Container where
  webServices : List WebService
deriving Repr, DecidableEq

/-- `container.Add(ws)`. -/
def Container.add (c : Container) (ws : WebService) : Container :=
  { c with webServices := c.webServices ++ [ws] }

/-- The fresh `wsv1` WebService of `RegisterEndpoints` before route
registration: root path `/v1/namespaces`, JSON in and out. -/
def wsv1Base : WebService :=
  { rootPath := "/v1/namespaces", consumes := [mimeJSON], produces := [mimeJSON], routes := [] }

/-- The `wsv1` WebService built by `RegisterEndpoints`: `wsv1Base` with the
dashboard's primary routes registered in source order. -/
def wsv1 : WebService :=
  wsv1Base
  |>.route ⟨"GET", "/\x7bnamespace\x7d/pipeline", .named "getAllPipelines"⟩
  |>.route ⟨"GET", "/\x7bnamespace\x7d/pipeline/\x7bname\x7d", .named "getPipeline"⟩
  |>.route ⟨"GET", "/\x7bnamespace\x7d/pipelinerun", .named "getAllPipelineRuns"⟩
  |>.route ⟨"GET", "/\x7bnamespace\x7d/pipelinerun/\x7bname\x7d", .named "getPipelineRun"⟩
  |>.route ⟨"PUT", "/\x7bnamespace\x7d/pipelinerun/\x7bname\x7d", .named "updatePipelineRun"⟩
  |>.route ⟨"GET", "/\x7bnamespace\x7d/pipelineresource", .named "getAllPipelineResources"⟩
  |>.route ⟨"GET", "/\x7bnamespace\x7d/pipelineresource/\x7bname\x7d", .named "getPipelineResource"⟩
  |>.route ⟨"GET", "/\x7bnamespace\x7d/task", .named "getAllTasks"⟩
  |>.route ⟨"GET", "/\x7bnamespace\x7d/task/\x7bname\x7d", .named "getTask"⟩
  |>.route ⟨"GET", "/\x7bnamespace\x7d/taskrun", .named "getAllTaskRuns"⟩
  |>.route ⟨"GET", "/\x7bnamespace\x7d/taskrun/\x7bname\x7d", .named "getTaskRun"⟩
  |>.route ⟨"GET", "/\x7bnamespace\x7d/log/\x7bname\x7d", .named "getPodLog"⟩
  |>.route ⟨"GET", "/\x7bnamespace\x7d/taskrunlog/\x7bname\x7d", .named "getTaskRunLog"⟩
  |>.route ⟨"GET", "/\x7bnamespace\x7d/pipelinerunlog/\x7bname\x7d", .named "getPipelineRunLog"⟩
  |>.route ⟨"GET", "/\x7bnamespace\x7d/credentials/", .named "getAllCredentials"⟩
  |>.route ⟨"GET", "/\x7bnamespace\x7d/credentials/\x7bid\x7d", .named "getCredential"⟩
  |>.route ⟨"POST", "/\x7bnamespace\x7d/credentials/", .named "createCredential"⟩
  |>.route ⟨"PUT", "/\x7bnamespace\x7d/credentials/\x7bid\x7d", .named "updateCredential"⟩
  |>.route ⟨"DELETE", "/\x7bnamespace\x7d/credentials/\x7bid\x7d", .named "deleteCredential"⟩

/-- `RegisterEndpoints` from utils.go: builds `wsv1` and adds it to the
container. -/
def registerEndpoints (c : Container) : Container :=
  c.add wsv1

/-- The inner annotation loop of `RegisterExtension`:
`for key, url := range svc.ObjectMeta.Annotations { if key == urlKey { ... } }`.
For each entry whose key is `urlKey`, an `Extension` is constructed with
the service's name, the annotation value, and `getPort(svc)` — the
`getPort` call panics (`none`) when the service declares no ports — and a
POST route at the annotation value is registered, handled by
`ext.HandleExtension`. -/
def registerAnnos (svc : Service) (ws : WebService) :
    List (String × String) → Option WebService
  | [] => some ws
  | kv :: rest =>
    if kv.1 = urlKey then
      match getPort svc with
      | some p =>
        registerAnnos svc
          (ws.route ⟨"POST", kv.2,
            .extensionHandler ⟨svc.name, kv.2, p⟩⟩) rest
      | none => none
    else
      registerAnnos svc ws rest

/-- Processing of one service inside `RegisterExtension`'s service loop. -/
def registerOne (ws : WebService) (svc : Service) : Option WebService :=
  registerAnnos svc ws svc.annotations

/-- The service loop of `RegisterExtension`
(`for _, svc := range svcs.Items`); a panic in any iteration aborts the
whole pass. -/
def registerSvcs (ws : WebService) : List Service → Option WebService
  | [] => some ws
  | svc :: rest =>
    match registerOne ws svc with
    | some ws' => registerSvcs ws' rest
    | none => none

/-- The fresh extension WebService that `RegisterExtension` builds before
the service loop: `ws.Path("/").Consumes(MIME_JSON).Produces(MIME_JSON)`. -/
def extWs0 : WebService :=
  { rootPath := "/", consumes := [mimeJSON], produces := [mimeJSON], routes := [] }

/-- `RegisterExtension` from utils.go.  The cluster list query
(`r.K8sClient.CoreV1().Services(namespace).List(...)` with label selector
`extensionLabel`) is performed by the Kubernetes client, an external
collaborator; its outcome is the parameter `q`: `.error e` when the query
failed, `.ok svcs` with the services carrying the extension label
otherwise.  On failure the error is logged and the function returns with
the container untouched; on success the extension WebService is built,
populated by the service loop, and added to the container.  A `none`
result models a Go panic aborting the pass. -/
def registerExtension (c : Container) (q : Except String (List Service)) :
    Option Container :=
  match q with
  | .error _ => some c
  | .ok svcs =>
    match registerSvcs extWs0 svcs with
    | some ws => some (c.add ws)
    | none => none

/-- An HTTP request as seen by the forwarding gateway. -/
structure Request where
  method : String
  url : String
  headers : List (String × String)
  body : String
deriving Repr, DecidableEq

/-- An HTTP response as produced by the forwarding gateway. -/
structure Response where
  status : Nat
  headers : List (String × String)
  body : String
deriving Repr, DecidableEq

/-- `HandleExtension`'s target URL string:
`"http://" + ext.Name + ":" + ext.Port + "/"`. -/
def targetString (ext : Extension) : String :=
  "http://" ++ ext.Name ++ ":" ++ ext.Port ++ "/"

/-- Modelled from the spec: `httputil.NewSingleHostReverseProxy` is Go
standard-library code, not under `src/`.  Per the spec (§4.4) the proxy
forwards the request unmodified except for the destination rewrite, streams
the upstream response back verbatim, surfaces a gateway-level error
(HTTP 502) when the upstream target is unreachable, and attempts the
forward exactly once with no retry.  `upstream` is the network: it maps
the rewritten request to `none` when the target cannot be resolved or
refuses the connection.  The second component of the result counts how
many times the forward was attempted. -/
def serveReverseProxy (target : String) (upstream : Request → Option Response)
    (req : Request) : Response × Nat :=
  let fwd : Request := { req with url := target }
  match upstream fwd with
  | some resp => (resp, 1)
  | none => ({ status := 502, headers := [], body := "" }, 1)

/-- `HandleExtension` from utils.go: parses the target string — the error
from `url.Parse` is discarded (`target, _ := url.Parse(...)`) — builds a
single-host reverse proxy on the result and serves the request through it.
`net/url.Parse` is standard-library code not under `src/`, so it is
abstracted by the predicate `parseOk`; when parsing fails the proxy is
built on a nil target and serving the request dereferences nil, a panic
modelled by `none`. -/
def handleExtension (parseOk : String → Bool)
    (upstream : Request → Option Response) (ext : Extension)
    (req : Request) : Option (Response × Nat) :=
  if parseOk (targetString ext) then
    some (serveReverseProxy (targetString ext) upstream req)
  else
    none

/-- The gateway-error response the reverse proxy produces when the
upstream target is unreachable (HTTP 502 Bad Gateway). -/
def badGatewayResponse : Response :=
  { status := 502, headers := [], body := "" }

/-! ### Concrete sample data (spec §8, end-to-end scenario 7) -/

/-- Scenario 7's service `foo`: extension label matched, endpoint
annotation `/foo-ext`, first declared port 8080 (a second port 9090 checks
that only the first is used). -/
def fooSvc : Service :=
  ⟨"foo", [("other", "x"), (urlKey, "/foo-ext")], [⟨8080⟩, ⟨9090⟩]⟩

/-- The route that discovery registers for `fooSvc`. -/
def fooRoute : Route :=
  ⟨"POST", "/foo-ext", .extensionHandler ⟨"foo", "/foo-ext", toString (8080 : Int)⟩⟩

/-- The extension WebService after a discovery pass over `[fooSvc]`. -/
def fooWs : WebService :=
  { extWs0 with routes := [fooRoute] }

/-- Scenario 7's service `bar`: extension label matched but no endpoint
annotation. -/
def barSvc : Service :=
  ⟨"bar", [("something", "else")], [⟨7070⟩]⟩

/-- A service declaring port 0: the code builds an Extension from it
without any positivity validation. -/
def zeroPortSvc : Service :=
  ⟨"zero-port", [(urlKey, "/zero")], [⟨0⟩]⟩

/-- The Extension value discovery builds for `fooSvc`. -/
def fooExt : Extension := ⟨"foo", "/foo-ext", "8080"⟩

/-- A sample inbound request on the registered extension path. -/
def sampleReq : Request :=
  ⟨"POST", "/foo-ext", [("Content-Type", "application/json")], "payload"⟩

/-- A reachable upstream that echoes the URL and body it saw, so the
response certifies what was forwarded. -/
def echoUpstream : Request → Option Response :=
  fun r => some ⟨200, r.headers, r.url ++ r.body⟩

/-- An unreachable upstream: connection refused on every request. -/
def downUpstream : Request → Option Response :=
  fun _ => none

/-! ### Helper lemmas -/

/-- The annotation loop leaves the WebService untouched when no annotation
entry carries the endpoint key. -/
theorem registerAnnos_of_no_key (svc : Service) (ws : WebService)
    (l : List (String × String)) (h : ∀ kv ∈ l, kv.1 ≠ urlKey) :
    registerAnnos svc ws l = some ws := by
  induction l with
  | nil => rfl
  | cons kv rest ih =>
    have hk : kv.1 ≠ urlKey := h kv (List.mem_cons_self kv rest)
    simp only [registerAnnos, if_neg hk]
    exact ih (fun x hx => h x (List.mem_cons_of_mem kv hx))

/-- The annotation loop on a Go map containing the endpoint key (keys of a
Go map are unique) registers exactly the POST route at the annotation
value, bound to the Extension built from the service name and the decimal
rendering of the first declared port. -/
theorem registerAnnos_found (svc : Service) (u : String) (p : ServicePort)
    (ps : List ServicePort) (hports : svc.ports = p :: ps) (ws : WebService)
    (l : List (String × String)) (hmem : (urlKey, u) ∈ l)
    (hnd : (l.map Prod.fst).Nodup) :
    registerAnnos svc ws l =
      some (ws.route ⟨"POST", u, .extensionHandler ⟨svc.name, u, toString p.port⟩⟩) := by
  induction l generalizing ws with
  | nil => cases hmem
  | cons kv rest ih =>
    rw [List.map_cons, List.nodup_cons] at hnd
    by_cases hk : kv.1 = urlKey
    · have hkv : kv = (urlKey, u) := by
        rcases List.mem_cons.mp hmem with h | h
        · exact h.symm
        · exact absurd (hk ▸ List.mem_map_of_mem Prod.fst h) hnd.1
      subst hkv
      simp only [registerAnnos, if_pos rfl, getPort, hports]
      exact registerAnnos_of_no_key svc _ rest (fun x hx heq => by
        have hx1 : x.1 ∈ List.map Prod.fst rest := List.mem_map_of_mem Prod.fst hx
        rw [heq] at hx1
        exact hnd.1 hx1)
    · have hmem' : (urlKey, u) ∈ rest := by
        rcases List.mem_cons.mp hmem with h | h
        · exact absurd (congrArg Prod.fst h.symm) hk
        · exact h
      simp only [registerAnnos, if_neg hk]
      exact ih ws hmem' hnd.2

/-- Filtering for a key right after filtering the key away yields nothing. -/
theorem filter_not_filter_self {α : Type} (p : α → Bool) (l : List α) :
    (l.filter (fun a => !(p a))).filter p = [] := by
  induction l with
  | nil => rfl
  | cons x xs ih => by_cases h : p x <;> simp [List.filter_cons, h, ih]

/-- After registering a route, exactly that route is present at its
(method, path) key. -/
theorem route_filter_key (w : WebService) (r : Route) :
    (w.route r).routes.filter (routeKeyMatch r) = [r] := by
  have hr : routeKeyMatch r r = true := by simp [routeKeyMatch]
  simp [WebService.route, List.filter_append, filter_not_filter_self, hr]

/-- The annotation loop never changes the WebService's root path. -/
theorem registerAnnos_rootPath (svc : Service)
    (l : List (String × String)) (ws ws' : WebService)
    (h : registerAnnos svc ws l = some ws') :
    ws'.rootPath = ws.rootPath := by
  induction l generalizing ws with
  | nil =>
    simp only [registerAnnos, Option.some.injEq] at h
    rw [← h]
  | cons kv rest ih =>
    by_cases hk : kv.1 = urlKey
    · cases hg : getPort svc with
      | none => simp [registerAnnos, hk, hg] at h
      | some pstr =>
        simp only [registerAnnos, if_pos hk, hg] at h
        exact ih (ws.route ⟨"POST", kv.2, .extensionHandler ⟨svc.name, kv.2, pstr⟩⟩) h
    · simp only [registerAnnos, if_neg hk] at h
      exact ih _ h

/-- The service loop never changes the WebService's root path. -/
theorem registerSvcs_rootPath (l : List Service) (ws ws' : WebService)
    (h : registerSvcs ws l = some ws') : ws'.rootPath = ws.rootPath := by
  induction l generalizing ws with
  | nil =>
    simp only [registerSvcs, Option.some.injEq] at h
    rw [← h]
  | cons svc rest ih =>
    cases ho : registerOne ws svc with
    | none => simp [registerSvcs, ho] at h
    | some ws1 =>
      simp only [registerSvcs, ho] at h
      exact (ih _ h).trans (registerAnnos_rootPath svc _ ws ws1 ho)

/-! ### Claim theorems -/

/-- Claim C1 (code bug): contrary to the claim, a service carrying the
extension label and the endpoint annotation but an empty `spec.ports` list
is not skipped: `RegisterExtension` evaluates `getPort` on it, which
indexes `svc.Spec.Ports[0]` out of range — a Go panic (modelled by `none`)
that aborts the discovery pass instead of completing it. -/
theorem registerExtension_panics_on_empty_ports :
    getPort ⟨"broken", [(urlKey, "/broken")], []⟩ = none ∧
    registerExtension ⟨[]⟩ (.ok [⟨"broken", [(urlKey, "/broken")], []⟩]) = none :=
  ⟨rfl, rfl⟩

/-- Claim C2: when two services in one discovery pass annotate the same
path, after `RegisterExtension` completes exactly one route exists for
that path, bound to the Extension of the service processed last. -/
theorem registerExtension_duplicate_path_last_wins
    (n1 n2 u : String) (p1 p2 : Int) (c : Container) :
    registerExtension c
        (.ok [⟨n1, [(urlKey, u)], [⟨p1⟩]⟩, ⟨n2, [(urlKey, u)], [⟨p2⟩]⟩]) =
      some (c.add { extWs0 with
        routes := [⟨"POST", u, .extensionHandler ⟨n2, u, toString p2⟩⟩] }) := by
  simp [registerExtension, registerSvcs, registerOne, registerAnnos, getPort,
    WebService.route, routeKeyMatch, extWs0, Container.add]

/-- Claim C3: a queried service whose annotation mapping holds the key
`tekton-dashboard-endpoints` with value `u` and which declares at least
one port gets exactly one POST route registered at exactly `u`, handled by
`HandleExtension` bound to the Extension built from the service's name and
its first declared port. -/
theorem registerOne_registers_annotated_route
    (ws : WebService) (svc : Service) (u : String) (p : ServicePort)
    (ps : List ServicePort)
    (hnd : (svc.annotations.map Prod.fst).Nodup)
    (hmem : (urlKey, u) ∈ svc.annotations)
    (hports : svc.ports = p :: ps) :
    ∃ ws', registerOne ws svc = some ws' ∧
      ws' = ws.route ⟨"POST", u, .extensionHandler ⟨svc.name, u, toString p.port⟩⟩ ∧
      ws'.routes.filter
          (routeKeyMatch ⟨"POST", u, .extensionHandler ⟨svc.name, u, toString p.port⟩⟩) =
        [⟨"POST", u, .extensionHandler ⟨svc.name, u, toString p.port⟩⟩] :=
  ⟨_, registerAnnos_found svc u p ps hports ws svc.annotations hmem hnd, rfl,
    route_filter_key ws _⟩

/-- Witness for C3: processing scenario 7's service `foo` registers the
single POST route `/foo-ext` bound to Extension (foo, /foo-ext, 8080). -/
theorem registerOne_registers_annotated_route_witness :
    ∃ ws', registerOne extWs0 fooSvc = some ws' ∧
      ws' = extWs0.route fooRoute ∧
      ws'.routes.filter (routeKeyMatch fooRoute) = [fooRoute] :=
  registerOne_registers_annotated_route extWs0 fooSvc "/foo-ext" ⟨8080⟩ [⟨9090⟩]
    (by decide) (by decide) rfl

/-- Claim C4: a request matched to an Extension's path is forwarded to
exactly `http://<Name>:<Port>/`, with method, headers and body unmodified
(only the destination is rewritten), and the upstream response is streamed
back verbatim. -/
theorem handleExtension_forwards_verbatim
    (parseOk : String → Bool) (upstream : Request → Option Response)
    (ext : Extension) (req : Request) (resp : Response)
    (hparse : parseOk (targetString ext) = true)
    (hup : upstream { method := req.method,
                      url := "http://" ++ ext.Name ++ ":" ++ ext.Port ++ "/",
                      headers := req.headers, body := req.body } = some resp) :
    handleExtension parseOk upstream ext req = some (resp, 1) := by
  have h2 : upstream { req with url := targetString ext } = some resp := hup
  simp [handleExtension, hparse, serveReverseProxy, h2]

/-- Witness for C4: the echoing upstream receives exactly
`http://foo:8080/` and the original body, and its response is returned
unchanged to the caller. -/
theorem handleExtension_forwards_verbatim_witness :
    handleExtension (fun _ => true) echoUpstream fooExt sampleReq =
      some (⟨200, [("Content-Type", "application/json")],
        "http://foo:8080/payload"⟩, 1) :=
  handleExtension_forwards_verbatim (fun _ => true) echoUpstream fooExt sampleReq
    ⟨200, [("Content-Type", "application/json")], "http://foo:8080/payload"⟩
    rfl rfl

/-- Claim C5: when the cluster list query fails, `RegisterExtension`
returns with the container untouched — no extension routes, no fatal
error — and the primary routes registered by `RegisterEndpoints` (the
`wsv1` WebService) remain in the container. -/
theorem registerExtension_query_failure_isolated (c : Container) (e : String) :
    registerExtension (registerEndpoints c) (.error e) = some (registerEndpoints c) ∧
    wsv1 ∈ (registerEndpoints c).webServices :=
  ⟨rfl, by simp [registerEndpoints, Container.add]⟩

/-- Claim C6: a labelled service whose annotation mapping lacks the key
`tekton-dashboard-endpoints` gets no route and raises no error, and the
rest of the discovery pass proceeds exactly as if the service were
absent. -/
theorem registerOne_missing_annotation_skips
    (ws : WebService) (svc : Service) (rest : List Service)
    (hno : urlKey ∉ svc.annotations.map Prod.fst) :
    registerOne ws svc = some ws ∧
    registerSvcs ws (svc :: rest) = registerSvcs ws rest := by
  have h1 : registerOne ws svc = some ws :=
    registerAnnos_of_no_key svc ws svc.annotations (fun kv hkv heq => by
      have h := List.mem_map_of_mem Prod.fst hkv
      rw [heq] at h
      exact hno h)
  exact ⟨h1, by simp [registerSvcs, h1]⟩

/-- Witness for C6: scenario 7's service `bar` (labelled, no endpoint
annotation) is skipped without error and without affecting the pass. -/
theorem registerOne_missing_annotation_skips_witness :
    registerOne extWs0 barSvc = some extWs0 ∧
    registerSvcs extWs0 [barSvc] = registerSvcs extWs0 [] :=
  registerOne_missing_annotation_skips extWs0 barSvc [] (by decide)

/-- Claim C7: when the upstream target cannot be resolved or refuses the
connection, the caller receives a gateway-level 502 response, and the
forward was attempted exactly once. -/
theorem handleExtension_unreachable_bad_gateway
    (parseOk : String → Bool) (upstream : Request → Option Response)
    (ext : Extension) (req : Request)
    (hparse : parseOk (targetString ext) = true)
    (hdown : upstream { req with url := targetString ext } = none) :
    handleExtension parseOk upstream ext req = some (badGatewayResponse, 1) := by
  simp [handleExtension, hparse, serveReverseProxy, hdown, badGatewayResponse]

/-- Witness for C7: with a connection-refusing upstream, the caller gets
the 502 gateway response after exactly one attempt. -/
theorem handleExtension_unreachable_bad_gateway_witness :
    handleExtension (fun _ => true) downUpstream fooExt sampleReq =
      some (badGatewayResponse, 1) :=
  handleExtension_unreachable_bad_gateway (fun _ => true) downUpstream fooExt
    sampleReq rfl rfl

/-- Counterexample for C8: the service `zero-port` declares first port 0;
discovery builds an Extension whose port is `"0"`, which is not a positive
integer — the code performs no positivity validation. -/
theorem registerOne_zero_port_not_positive :
    registerOne extWs0 zeroPortSvc =
      some { extWs0 with routes :=
        [⟨"POST", "/zero", .extensionHandler ⟨"zero-port", "/zero", toString (0 : Int)⟩⟩] } ∧
    ¬(0 < (0 : Int)) :=
  ⟨rfl, by decide⟩

/-- Claim C8 (amended): every Extension constructed during a discovery
pass has its port taken from the first element of the service's declared
port list, rendered in decimal; positivity is inherited from the cluster's
own validation, not checked by this code. -/
theorem getPort_takes_first_port (svc : Service) (p : ServicePort)
    (ps : List ServicePort) (h : svc.ports = p :: ps) :
    getPort svc = some (toString p.port) := by
  simp [getPort, h]

/-- Witness for C8 (amended): `fooSvc` declares ports [8080, 9090] and its
Extension port is the first one, 8080. -/
theorem getPort_takes_first_port_witness :
    getPort fooSvc = some (toString (8080 : Int)) :=
  getPort_takes_first_port fooSvc ⟨8080⟩ [⟨9090⟩] rfl

/-- Claim C9: `HandleExtension` discards the `url.Parse` error; serving a
request avoids the nil-target proxy panic exactly when the concatenated
target string parses — the unstated precondition under which the nil
branch is unreachable. -/
theorem handleExtension_parse_precondition
    (parseOk : String → Bool) (upstream : Request → Option Response)
    (ext : Extension) (req : Request) :
    (handleExtension parseOk upstream ext req).isSome = true ↔
      parseOk (targetString ext) = true := by
  by_cases h : parseOk (targetString ext) <;> simp [handleExtension, h]

/-- Counterexample for C10: a successful query does not always end with a
WebService being added — a matched service with an empty port list panics
the pass (modelled by `none`) before `container.Add` is reached. -/
theorem registerExtension_ok_query_no_add :
    registerExtension ⟨[wsv1]⟩ (.ok [⟨"bad", [(urlKey, "/bad")], []⟩]) = none :=
  rfl

/-- Claim C10 (amended): `RegisterExtension` is atomic with respect to
query failure — on a failed query it returns before building or adding any
WebService, leaving the container unchanged; on a successful query whose
service loop completes without the empty-port panic (in particular when
zero services matched), a WebService rooted at "/" is added. -/
theorem registerExtension_atomic (c : Container) (e : String)
    (svcs : List Service) :
    registerExtension c (.error e) = some c ∧
    registerExtension c (.ok []) = some (c.add extWs0) ∧
    ∀ ws, registerSvcs extWs0 svcs = some ws →
      registerExtension c (.ok svcs) = some (c.add ws) ∧ ws.rootPath = "/" := by
  refine ⟨rfl, rfl, fun ws h => ⟨?_, ?_⟩⟩
  · simp [registerExtension, h]
  · exact registerSvcs_rootPath svcs extWs0 ws h

/-- Witness for C10 (amended): a failed query leaves the empty container
empty; an empty result list still adds the root WebService; the pass over
`[fooSvc]` adds the populated root WebService. -/
theorem registerExtension_atomic_witness :
    registerExtension ⟨[]⟩ (.error "no extension found") = some ⟨[]⟩ ∧
    registerExtension ⟨[]⟩ (.ok []) = some (Container.add ⟨[]⟩ extWs0) ∧
    (registerExtension ⟨[]⟩ (.ok [fooSvc]) = some (Container.add ⟨[]⟩ fooWs) ∧
      fooWs.rootPath = "/") := by
  obtain ⟨h1, h2, h3⟩ := registerExtension_atomic ⟨[]⟩ "no extension found" [fooSvc]
  exact ⟨h1, h2, h3 fooWs rfl⟩

end TektonDashboard
